import Mathlib

/-!
Verification of the stake-pool cranker against its design specification.

This file gives a shallow embedding of the relevant parts of the sources
(src/client.rs, src/config.rs, src/main.rs, src/utils/compute_budget.rs,
src/utils/types.rs) and proves or refutes the frozen claims about them.
Network effects (RPC calls, Slack notifications, HTTP handling) are made
explicit: each modelled function takes the responses of its collaborators
as arguments and returns the sequence of externally visible actions it
performs, in order, together with its result.
-/

set_option linter.unusedVariables false

namespace StakePoolCranker

/-- Little-endian fixed-width byte encoding of a natural number, modelling
Rust's `u32::to_le_bytes` / `u64::to_le_bytes` (width 4 resp. 8). -/
def nat_to_le_bytes : Nat → Nat → List Nat
  | _, 0 => []
  | n, k + 1 => n % 256 :: nat_to_le_bytes (n / 256) k

/-- Little-endian byte decoding, modelling Rust's `u32::from_le_bytes` /
`u64::from_le_bytes`. -/
def nat_from_le_bytes : List Nat → Nat
  | [] => 0
  | b :: rest => b + 256 * nat_from_le_bytes rest

/-- Model of `solana_instruction::Instruction`: a program id, an opaque data
payload (bytes), and account metas (abstracted to their addresses). -/
structure Instruction where
  program_id : String
  data : List Nat
  accounts : List String
deriving DecidableEq, Repr

/-- The compute-budget program id from src/utils/compute_budget.rs `id()`. -/
def compute_budget_program_id : String :=
  "ComputeBudget111111111111111111111111111111"

namespace ComputeBudgetInstruction

/-- src/utils/compute_budget.rs `set_compute_unit_limit`: discriminator byte 2
followed by the little-endian u32 payload (the `to_instruction!` macro). -/
def set_compute_unit_limit (units : Nat) : Instruction :=
  { program_id := compute_budget_program_id
    data := 2 :: nat_to_le_bytes units 4
    accounts := [] }

/-- src/utils/compute_budget.rs `set_compute_unit_price`: discriminator byte 3
followed by the little-endian u64 payload. -/
def set_compute_unit_price (micro_lamports : Nat) : Instruction :=
  { program_id := compute_budget_program_id
    data := 3 :: nat_to_le_bytes micro_lamports 8
    accounts := [] }

end ComputeBudgetInstruction

/-- Overwrite the `data` payload of the last instruction of a list, leaving
every other instruction unchanged. Models the in-place mutation
`instructions.last_mut().expect(..).data = ..` in src/client.rs. -/
def set_last_data : List Instruction → List Nat → List Instruction
  | [], _ => []
  | i :: rest, d =>
    match rest with
    | [] => [{ i with data := d }]
    | r :: rs => i :: set_last_data (r :: rs) d

/-- src/client.rs `MAX_COMPUTE_UNIT_LIMIT`. -/
def MAX_COMPUTE_UNIT_LIMIT : Nat := 1400000

/-- src/client.rs `add_compute_unit_limit_from_simulation`. The RPC
`simulate_transaction` call is modelled by the oracle `simulate`, applied to
the assembled instruction list (payer and blockhash only shape the simulated
message and are folded into the oracle): `.error` is a transport failure and
`.ok u` returns the optional `units_consumed` field of the simulation result.
`u32::try_from` fails for values at or above 2 ^ 32. -/
def add_compute_unit_limit_from_simulation (instructions : List Instruction)
    (simulate : List Instruction → Except String (Option Nat)) :
    Except String (List Instruction) :=
  let assembled :=
    instructions ++ [ComputeBudgetInstruction.set_compute_unit_limit MAX_COMPUTE_UNIT_LIMIT]
  match simulate assembled with
  | Except.error e => Except.error e
  | Except.ok none => Except.error "No units consumed on simulation"
  | Except.ok (some units_consumed) =>
    if units_consumed < 4294967296 then
      Except.ok (set_last_data assembled
        (ComputeBudgetInstruction.set_compute_unit_limit units_consumed).data)
    else
      Except.error "out of range integral type conversion attempted"

/-- src/main.rs `ComputeUnitLimit`. -/
inductive ComputeUnitLimit where
  | Default
  | Static (n : Nat)
  | Simulated
deriving DecidableEq, Repr

/-- src/main.rs `Config` (the worker configuration): the fee payer is
abstracted to its public key rendered as a string. -/
structure Config where
  stake_pool_program_id : String
  fee_payer : String
  dry_run : Bool
  no_update : Bool
  compute_unit_price : Option Nat
  compute_unit_limit : ComputeUnitLimit
deriving DecidableEq, Repr

/-- The RPC responses consumed by one transaction build
(src/main.rs `checked_transaction_with_signers_and_additional_fee`):
the latest blockhash, the simulation outcome (only consulted under
`ComputeUnitLimit.Simulated`), the fee quoted for the message, and the fee
payer's balance. -/
structure BuildEnv where
  recent_blockhash : Nat
  simulate_units : Except String (Option Nat)
  required_fee : Nat
  fee_payer_balance : Nat
deriving Repr

/-- The externally visible steps of one transaction build and submission,
in program order. -/
inductive BuildStep where
  | fetchBlockhash
  | fetchFee
  | checkBalance
  | sign
  | send
deriving DecidableEq, Repr

/-- Model of a signed `solana_transaction::Transaction` as produced by
`Transaction::new(signers, message, recent_blockhash)`. -/
structure Transaction where
  message_instructions : List Instruction
  fee_payer : String
  blockhash : Nat
deriving DecidableEq, Repr

/-- Display of `solana_native_token::Sol` (lamports rendered as whole SOL,
a dot, and the 9-digit zero-padded fractional part). -/
def sol_display (lamports : Nat) : String :=
  let frac := toString (lamports % 1000000000)
  let pad := String.mk (List.replicate (9 - frac.length) '0')
  "◎" ++ toString (lamports / 1000000000) ++ "." ++ pad ++ frac

/-- The error message raised by src/main.rs `check_fee_payer_balance`, naming
the required and the available amounts. -/
def insufficient_balance_message (fee_payer : String) (required available : Nat) : String :=
  "Fee payer, " ++ fee_payer ++ ", has insufficient balance: " ++
    sol_display required ++ " required, " ++ sol_display available ++ " available"

/-- src/main.rs `check_fee_payer_balance` (lines 278-294): the balance has
already been fetched from the RPC (it is the `balance` argument). -/
def check_fee_payer_balance (fee_payer : String) (balance required_balance : Nat) :
    Except String Unit :=
  if balance < required_balance then
    Except.error (insufficient_balance_message fee_payer required_balance balance)
  else
    Except.ok ()

/-- The compute-unit-price step of src/main.rs lines 307-311: append a price
instruction exactly when a price is configured. -/
def with_compute_unit_price (config : Config) (instructions : List Instruction) :
    List Instruction :=
  match config.compute_unit_price with
  | some compute_unit_price =>
    instructions ++ [ComputeBudgetInstruction.set_compute_unit_price compute_unit_price]
  | none => instructions

/-- The compute-unit-limit resolution of src/main.rs lines 312-328. -/
def resolve_compute_unit_limit (config : Config) (sim : Except String (Option Nat))
    (instructions : List Instruction) : Except String (List Instruction) :=
  match config.compute_unit_limit with
  | ComputeUnitLimit.Default => Except.ok instructions
  | ComputeUnitLimit.Static compute_unit_limit =>
    Except.ok (instructions ++
      [ComputeBudgetInstruction.set_compute_unit_limit compute_unit_limit])
  | ComputeUnitLimit.Simulated =>
    add_compute_unit_limit_from_simulation instructions (fun _ => sim)

/-- src/main.rs `checked_transaction_with_signers_and_additional_fee`
(lines 296-347), returning the steps performed in order together with the
result. The Rust `additional_fee.saturating_add(required_fee)` is modelled by
`Nat` addition (which cannot overflow). A compute-limit failure aborts after
the blockhash fetch; an insufficient balance aborts after the balance check;
only then is the transaction signed (`Transaction::new`). -/
def checked_transaction_with_signers_and_additional_fee (config : Config)
    (env : BuildEnv) (instructions : List Instruction) (additional_fee : Nat) :
    List BuildStep × Except String Transaction :=
  let priced := with_compute_unit_price config instructions
  match resolve_compute_unit_limit config env.simulate_units priced with
  | Except.error e => ([BuildStep.fetchBlockhash], Except.error e)
  | Except.ok final_instructions =>
    match check_fee_payer_balance config.fee_payer env.fee_payer_balance
        (additional_fee + env.required_fee) with
    | Except.error e =>
      ([BuildStep.fetchBlockhash, BuildStep.fetchFee, BuildStep.checkBalance],
        Except.error e)
    | Except.ok _ =>
      ([BuildStep.fetchBlockhash, BuildStep.fetchFee, BuildStep.checkBalance,
          BuildStep.sign],
        Except.ok { message_instructions := final_instructions
                    fee_payer := config.fee_payer
                    blockhash := env.recent_blockhash })

/-- A build followed by handing the transaction to the transport's send path,
as every caller in src/main.rs does (`checked_transaction_with_signers`
then `send_transaction` / `send_transaction_no_wait`): on a build error the
transaction is never sent. -/
def build_and_send (config : Config) (env : BuildEnv) (instructions : List Instruction)
    (additional_fee : Nat) : List BuildStep × Except String Unit :=
  match checked_transaction_with_signers_and_additional_fee config env instructions
      additional_fee with
  | (trace, Except.error e) => (trace, Except.error e)
  | (trace, Except.ok _) => (trace ++ [BuildStep.send], Except.ok ())

/-- The transport submissions made by the update pipeline, in order:
a fire-and-forget send (`send_transaction` no-wait), the fixed pacing sleep,
or a send that blocks until confirmation
(`send_and_confirm_transaction_with_spinner`). -/
inductive SendEvent where
  | noWait (instructions : List Instruction)
  | pacingSleep (seconds : Nat)
  | waitConfirm (instructions : List Instruction)
deriving DecidableEq, Repr

/-- Rust `Vec::split_off i`: leaves the first `i` elements in place and
returns the tail; it panics when `i` exceeds the length (modelled as `none`). -/
def split_off (l : List Instruction) (i : Nat) :
    Option (List Instruction × List Instruction) :=
  if i ≤ l.length then some (l.take i, l.drop i) else none

/-- The submission pipeline of src/main.rs `command_update` (lines 437-471),
as the ordered sequence of transport submissions of a failure-free run (any
build or send failure aborts the remaining sequence, §4.3): each of the
first `len - 1` list-update instructions is its own no-wait transaction
followed by a 30-second pacing sleep, the last list-update instruction and
then the final settlement instructions are each sent waiting for
confirmation. `none` models the `split_off` panic (unreachable under the
length guard). -/
def command_update_send_trace (update_list_instructions final_instructions :
    List Instruction) : Option (List SendEvent) :=
  let update_list_instructions_len := update_list_instructions.length
  if update_list_instructions_len > 0 then
    match split_off update_list_instructions (update_list_instructions_len - 1) with
    | none => none
    | some (first, last_instruction) =>
      some ((first.flatMap fun instruction =>
          [SendEvent.noWait [instruction], SendEvent.pacingSleep 30])
        ++ [SendEvent.waitConfirm last_instruction,
            SendEvent.waitConfirm final_instructions])
  else
    some [SendEvent.waitConfirm final_instructions]

/-- The part of `spl_stake_pool::state::StakePool` consumed by this program:
its last-updated epoch and the address of its validator list. -/
structure StakePool where
  last_update_epoch : Nat
  validator_list : String
deriving DecidableEq, Repr

/-- The collaborator responses for one configured pool address inside one
reconciliation cycle of src/main.rs `set_config_and_update`: whether
`Pubkey::from_str` accepts the address, the `get_stake_pool` result, the
`get_epoch_info` result (`.ok` carries the current epoch), whether the Slack
sends whose errors are propagated with `?` succeed, and whether the
`command_update` run succeeds. -/
structure AddrEnv where
  parse_ok : Bool
  pool : Except String StakePool
  epoch_info : Except String Nat
  slack_ok : Bool
  update_ok : Bool
deriving Repr

/-- The externally visible actions of one reconciliation cycle, in order. -/
inductive CycleEvent where
  | fetchPool (address : String)
  | fetchEpoch (address : String)
  | notify (text : String)
  | skipPool (address : String)
  | runUpdate (address : String)
deriving DecidableEq, Repr

/-- The Slack text sent when the epoch-info fetch fails (src/main.rs:205). -/
def rpc_fail_message : String :=
  "Rpc is failing to get the latest epoch info. Retrying again in 5 minutes"

/-- The Slack text sent when an epoch change is detected (src/main.rs:229). -/
def starting_message (address : String) (epoch : Nat) : String :=
  "Epoch changed, executing update for stake pool " ++ address ++
    " for epoch " ++ toString epoch

/-- The Slack text sent when the update run fails (src/main.rs:245). -/
def update_fail_message (address : String) : String :=
  "Failed to run command to update stake pool " ++ address

/-- The per-address loop of src/main.rs `set_config_and_update`
(lines 195-258). A pubkey parse failure or a pool-fetch failure aborts the
whole cycle through `?`. A failed epoch-info fetch (there is no retry: a
single attempt is made) sends one failure notification and then executes
`return Ok(())`, ending the cycle early without an error — the remaining
addresses are not visited; if that notification itself fails, the error is
propagated. When the pool's `last_update_epoch` equals the current epoch the
address is skipped with no notification and no update. Otherwise a starting
notification is sent (its failure propagates), the update runs, and on update
failure a best-effort failure notification is sent. -/
def process_addresses (env : String → AddrEnv) :
    List String → List CycleEvent × Except String Unit
  | [] => ([], Except.ok ())
  | address :: rest =>
    let e := env address
    if e.parse_ok = false then
      ([], Except.error ("Invalid pubkey: " ++ address))
    else
      match e.pool with
      | Except.error err => ([CycleEvent.fetchPool address], Except.error err)
      | Except.ok stake_pool =>
        match e.epoch_info with
        | Except.error _ =>
          if e.slack_ok then
            ([CycleEvent.fetchPool address, CycleEvent.fetchEpoch address,
                CycleEvent.notify rpc_fail_message],
              Except.ok ())
          else
            ([CycleEvent.fetchPool address, CycleEvent.fetchEpoch address],
              Except.error "Failed to send message on slack about rpc failure")
        | Except.ok epoch =>
          if stake_pool.last_update_epoch = epoch then
            let r := process_addresses env rest
            (CycleEvent.fetchPool address :: CycleEvent.fetchEpoch address ::
                CycleEvent.skipPool address :: r.1,
              r.2)
          else
            if e.slack_ok = false then
              ([CycleEvent.fetchPool address, CycleEvent.fetchEpoch address],
                Except.error "Failed to send slack message about triggering rewards")
            else
              let update_events :=
                if e.update_ok then
                  [CycleEvent.runUpdate address]
                else
                  [CycleEvent.runUpdate address,
                    CycleEvent.notify (update_fail_message address)]
              let r := process_addresses env rest
              (CycleEvent.fetchPool address :: CycleEvent.fetchEpoch address ::
                  CycleEvent.notify (starting_message address epoch) ::
                  (update_events ++ r.1),
                r.2)

/-- `spl_stake_pool::state::AccountType`, the decoded source enum. -/
inductive SplAccountType where
  | Uninitialized
  | StakePool
  | ValidatorList
deriving DecidableEq, Repr

/-- src/utils/types.rs `AccountType`, the wire enum. -/
inductive AccountType where
  | Uninitialized
  | StakePool
  | ValidatorList
deriving DecidableEq, Repr

/-- src/utils/types.rs `PodU64` (and the identical SPL pod type): a raw
little-endian 8-byte array. -/
structure PodU64 where
  bytes : List Nat
deriving DecidableEq, Repr

/-- src/utils/types.rs `PodU32`: a raw little-endian 4-byte array. -/
structure PodU32 where
  bytes : List Nat
deriving DecidableEq, Repr

/-- src/utils/types.rs `PodStakeStatus` (and the identical SPL pod type):
a single raw byte. -/
structure PodStakeStatus where
  byte : Nat
deriving DecidableEq, Repr

/-- `spl_stake_pool::state::ValidatorStakeInfo`, the decoded source record. -/
structure SplValidatorStakeInfo where
  active_stake_lamports : PodU64
  transient_stake_lamports : PodU64
  last_update_epoch : PodU64
  transient_seed_suffix : PodU64
  unused : PodU32
  validator_seed_suffix : PodU32
  status : PodStakeStatus
  vote_account_address : String
deriving DecidableEq, Repr

/-- src/utils/types.rs `ValidatorStakeInfo`, the wire record. -/
structure ValidatorStakeInfo where
  active_stake_lamports : PodU64
  transient_stake_lamports : PodU64
  last_update_epoch : PodU64
  transient_seed_suffix : PodU64
  unused : PodU32
  validator_seed_suffix : PodU32
  status : PodStakeStatus
  vote_account_address : String
deriving DecidableEq, Repr

/-- `spl_stake_pool::state::ValidatorListHeader`. -/
structure SplValidatorListHeader where
  account_type : SplAccountType
  max_validators : Nat
deriving DecidableEq, Repr

/-- src/utils/types.rs `ValidatorListHeader`. -/
structure ValidatorListHeader where
  account_type : AccountType
  max_validators : Nat
deriving DecidableEq, Repr

/-- `spl_stake_pool::state::ValidatorList`. -/
structure SplValidatorList where
  header : SplValidatorListHeader
  validators : List SplValidatorStakeInfo
deriving DecidableEq, Repr

/-- src/utils/types.rs `ValidatorList`. -/
structure ValidatorList where
  header : ValidatorListHeader
  validators : List ValidatorStakeInfo
deriving DecidableEq, Repr

/-- The explicit account-type match of src/main.rs lines 120-124. -/
def serialize_account_type : SplAccountType → AccountType
  | SplAccountType.StakePool => AccountType.StakePool
  | SplAccountType.Uninitialized => AccountType.Uninitialized
  | SplAccountType.ValidatorList => AccountType.ValidatorList

/-- The per-entry transform of src/main.rs lines 130-151: every numeric field
is decoded from its little-endian bytes and re-encoded
(`u64::from_le_bytes(..).to_le_bytes()` and the u32 analogues), the status
byte is copied (the source performs this copy with an unsafe raw-pointer
read of the status field's first byte), and the vote-account address is
copied unchanged. -/
def serialize_stake_info (x : SplValidatorStakeInfo) : ValidatorStakeInfo :=
  { active_stake_lamports :=
      ⟨nat_to_le_bytes (nat_from_le_bytes x.active_stake_lamports.bytes) 8⟩
    transient_stake_lamports :=
      ⟨nat_to_le_bytes (nat_from_le_bytes x.transient_stake_lamports.bytes) 8⟩
    last_update_epoch :=
      ⟨nat_to_le_bytes (nat_from_le_bytes x.last_update_epoch.bytes) 8⟩
    transient_seed_suffix :=
      ⟨nat_to_le_bytes (nat_from_le_bytes x.transient_seed_suffix.bytes) 8⟩
    unused := ⟨nat_to_le_bytes (nat_from_le_bytes x.unused.bytes) 4⟩
    validator_seed_suffix :=
      ⟨nat_to_le_bytes (nat_from_le_bytes x.validator_seed_suffix.bytes) 4⟩
    status := ⟨x.status.byte⟩
    vote_account_address := x.vote_account_address }

/-- The whole-list transform of src/main.rs lines 118-153. -/
def serialize_validator_list (vl : SplValidatorList) : ValidatorList :=
  { header := { account_type := serialize_account_type vl.header.account_type
                max_validators := vl.header.max_validators }
    validators := vl.validators.map serialize_stake_info }

/-- The collaborator responses for one `GET /validators` request
(src/main.rs `get_validators`): whether `Pubkey::from_str` accepts the first
configured address, the `get_stake_pool` result, the `get_validator_list`
result, and whether the spawned task panicked. -/
structure HttpEnv where
  parse_ok : Bool
  pool_fetch : Option StakePool
  list_fetch : Option SplValidatorList
  panicked : Bool
deriving Repr

/-- The body of an HTTP response: a JSON rendering of the wire validator
list, or a short text message. -/
inductive ResponseBody where
  | jsonList (v : ValidatorList)
  | text (s : String)
deriving DecidableEq, Repr

/-- An HTTP response: status code and body. -/
structure HttpResponseModel where
  status : Nat
  body : ResponseBody
deriving DecidableEq, Repr

/-- The spawned-task body of src/main.rs `get_validators` (lines 102-156). -/
def get_validators_inner (stake_pool_address : List String) (env : HttpEnv) :
    Except String ValidatorList :=
  if stake_pool_address.isEmpty then
    Except.error "No stake pool addresses configured"
  else if env.parse_ok = false then
    Except.error "Invalid stake pool address"
  else
    match env.pool_fetch with
    | none => Except.error "Failed to fetch stake pool"
    | some _ =>
      match env.list_fetch with
      | none => Except.error "Failed to fetch validator list"
      | some validator_list => Except.ok (serialize_validator_list validator_list)

/-- src/main.rs `get_validators` (lines 100-164): a panic of the spawned task
is caught by the `tokio::task::spawn` join and answered with a 500, an inner
error becomes a 500 with the short text, and success is a 200 JSON body. -/
def get_validators (stake_pool_address : List String) (env : HttpEnv) :
    HttpResponseModel :=
  if env.panicked then
    { status := 500, body := ResponseBody.text "Internal panic occurred" }
  else
    match get_validators_inner stake_pool_address env with
    | Except.ok validators => { status := 200, body := ResponseBody.jsonList validators }
    | Except.error msg => { status := 500, body := ResponseBody.text msg }

/-- src/config.rs `StakePoolConfig`. -/
structure StakePoolConfig where
  rpc_url : String
  fee_payer_private_key : String
  stake_pool_address : String
  slack_token : String
  slack_channel_id : String
deriving DecidableEq, Repr

/-- src/config.rs `StakePoolConfig::get_config` (lines 29-43). The process
environment is the map `env`. Each `env::var(..).unwrap_or_else(|_| ..)`
substitutes the displayed `ConfigError` message for a missing variable and
construction always succeeds: the function is total and never reports an
error to its caller. -/
def get_config (env : String → Option String) : StakePoolConfig :=
  { rpc_url := (env "RPC_URL").getD "Error: Invalid RPC Url"
    fee_payer_private_key :=
      (env "FEE_PAYER_PRIVATE_KEY").getD "Error: Invalid Fee Payer"
    stake_pool_address :=
      (env "STAKE_POOL_ADDRESS").getD "Error: Invalid Stake Pool Address"
    slack_token := (env "SLACK_TOKEN").getD "Error: Invalid Slack Token"
    slack_channel_id :=
      (env "SLACK_CHANNEL_ID").getD "Error: Invalid Slack Channel ID" }

/-- Well-formed raw byte array: exactly `n` bytes, each below 256. -/
abbrev bytes_wf (bs : List Nat) (n : Nat) : Prop :=
  bs.length = n ∧ ∀ b ∈ bs, b < 256

/-- A concrete instruction used to exercise the pipeline. -/
def example_instruction_1 : Instruction :=
  { program_id := "Prog1", data := [1], accounts := [] }

/-- A concrete instruction used to exercise the pipeline. -/
def example_instruction_2 : Instruction :=
  { program_id := "Prog2", data := [2], accounts := [] }

/-- A concrete instruction used to exercise the pipeline. -/
def example_instruction_3 : Instruction :=
  { program_id := "Prog3", data := [3], accounts := [] }

/-- The worker configuration built in src/main.rs `set_config_and_update`
(lines 183-191): no dry run, no `no_update`, a static compute-unit limit of
250000 and no compute-unit price. -/
def example_worker_config : Config :=
  { stake_pool_program_id := "SPoo1Ku8WFXoNDMHPsrGSTSG1Y47rzgn41SLUNakuHy"
    fee_payer := "FeePayer1111111111111111111111111111111111"
    dry_run := false
    no_update := false
    compute_unit_price := none
    compute_unit_limit := ComputeUnitLimit.Static 250000 }

/-- Scenario D of the specification: fee quote 150 lamports while the fee
payer holds 100 lamports. -/
def example_build_env_low_balance : BuildEnv :=
  { recent_blockhash := 7
    simulate_units := Except.ok (some 100)
    required_fee := 150
    fee_payer_balance := 100 }

/-- A per-address environment whose epoch-info fetch fails while everything
else succeeds. -/
def addr_env_epoch_fail : AddrEnv :=
  { parse_ok := true
    pool := Except.ok { last_update_epoch := 500, validator_list := "VList1" }
    epoch_info := Except.error "rpc down"
    slack_ok := true
    update_ok := true }

/-- A fully healthy per-address environment observing epoch 501 on a pool
last updated at epoch 500. -/
def addr_env_ok : AddrEnv :=
  { parse_ok := true
    pool := Except.ok { last_update_epoch := 500, validator_list := "VList1" }
    epoch_info := Except.ok 501
    slack_ok := true
    update_ok := true }

/-- A healthy per-address environment whose pool is already at the current
epoch (Scenario A: pool epoch 500, network epoch 500). -/
def addr_env_same_epoch : AddrEnv :=
  { parse_ok := true
    pool := Except.ok { last_update_epoch := 500, validator_list := "VList1" }
    epoch_info := Except.ok 500
    slack_ok := true
    update_ok := true }

/-- A cycle environment where the first configured pool's epoch-info fetch
fails and the second pool is healthy. -/
def cycle_env_c4 : String → AddrEnv :=
  fun address => if address = "pool1" then addr_env_epoch_fail else addr_env_ok

/-- A cycle environment where every pool is already at the current epoch. -/
def cycle_env_c5 : String → AddrEnv :=
  fun _ => addr_env_same_epoch

/-- A request environment whose first configured address is rejected by
`Pubkey::from_str`. -/
def http_env_bad_parse : HttpEnv :=
  { parse_ok := false, pool_fetch := none, list_fetch := none, panicked := false }

/-- A request environment whose spawned task panicked. -/
def http_env_panicked : HttpEnv :=
  { parse_ok := true, pool_fetch := none, list_fetch := none, panicked := true }

/-- A concrete decoded validator entry. -/
def sample_stake_info : SplValidatorStakeInfo :=
  { active_stake_lamports := ⟨[1, 0, 0, 0, 0, 0, 0, 0]⟩
    transient_stake_lamports := ⟨[255, 2, 0, 0, 0, 0, 0, 0]⟩
    last_update_epoch := ⟨[244, 1, 0, 0, 0, 0, 0, 0]⟩
    transient_seed_suffix := ⟨[9, 0, 0, 0, 0, 0, 0, 0]⟩
    unused := ⟨[0, 0, 0, 0]⟩
    validator_seed_suffix := ⟨[7, 0, 0, 0]⟩
    status := ⟨0⟩
    vote_account_address := "Vote111111111111111111111111111111111111111" }

end StakePoolCranker

namespace StakePoolCranker

theorem mod_mul_256 (n m : Nat) :
    n % (256 * m) = n % 256 + 256 * (n / 256 % m) := by
  have h1 := Nat.div_add_mod (n % (256 * m)) 256
  rw [Nat.mod_mul_right_div_self] at h1
  have h2 : n % (256 * m) % 256 = n % 256 := Nat.mod_mod_of_dvd n ⟨m, rfl⟩
  omega

theorem nat_from_to (k : Nat) :
    ∀ n, nat_from_le_bytes (nat_to_le_bytes n k) = n % 256 ^ k := by
  induction k with
  | zero => intro n; simp [nat_to_le_bytes, nat_from_le_bytes, Nat.mod_one]
  | succ k ih =>
    intro n
    simp only [nat_to_le_bytes, nat_from_le_bytes, ih]
    rw [pow_succ, mul_comm (256 ^ k) 256, mod_mul_256]

theorem nat_to_from (bs : List Nat) (h : ∀ b ∈ bs, b < 256) :
    nat_to_le_bytes (nat_from_le_bytes bs) bs.length = bs := by
  induction bs with
  | nil => rfl
  | cons b rest ih =>
    have hb : b < 256 := h b (List.mem_cons_self b rest)
    have hrest : ∀ x ∈ rest, x < 256 := fun x hx => h x (List.mem_cons_of_mem b hx)
    simp only [nat_from_le_bytes, List.length_cons, nat_to_le_bytes]
    have h1 : (b + 256 * nat_from_le_bytes rest) % 256 = b := by omega
    have h2 : (b + 256 * nat_from_le_bytes rest) / 256 = nat_from_le_bytes rest := by
      omega
    rw [h1, h2, ih hrest]

theorem bytes_roundtrip (bs : List Nat) (n : Nat) (h : bytes_wf bs n) :
    nat_to_le_bytes (nat_from_le_bytes bs) n = bs := by
  rcases h with ⟨hlen, hb⟩
  subst hlen
  exact nat_to_from bs hb

theorem set_last_data_append (l : List Instruction) (i : Instruction) (d : List Nat) :
    set_last_data (l ++ [i]) d = l ++ [{ i with data := d }] := by
  induction l with
  | nil => rfl
  | cons a l ih =>
    cases l with
    | nil => rfl
    | cons x xs =>
      show a :: set_last_data ((x :: xs) ++ [i]) d
          = a :: ((x :: xs) ++ [{ i with data := d }])
      rw [ih]

/-- Claim C1: under the Simulated compute-unit-limit policy, a provisional
maximum-limit instruction is appended as the last instruction, the assembled
transaction is simulated, and the value written back into that same last
instruction's payload equals exactly the `units_consumed` returned by the
simulation (the payload decodes back to it); the result replaces only the
last instruction's payload so the instruction count after the correction
equals the count before it; and an absent `units_consumed` fails the build. -/
theorem c1_simulated_compute_unit_limit (instructions : List Instruction)
    (simulate : List Instruction → Except String (Option Nat)) (units_consumed : Nat)
    (h32 : units_consumed < 4294967296)
    (hsim : simulate (instructions ++
        [ComputeBudgetInstruction.set_compute_unit_limit MAX_COMPUTE_UNIT_LIMIT])
      = Except.ok (some units_consumed)) :
    add_compute_unit_limit_from_simulation instructions simulate
        = Except.ok (instructions ++
            [ComputeBudgetInstruction.set_compute_unit_limit units_consumed])
    ∧ (instructions ++
          [ComputeBudgetInstruction.set_compute_unit_limit units_consumed]).length
        = (instructions ++
            [ComputeBudgetInstruction.set_compute_unit_limit MAX_COMPUTE_UNIT_LIMIT]).length
    ∧ nat_from_le_bytes
        ((ComputeBudgetInstruction.set_compute_unit_limit units_consumed).data.drop 1)
        = units_consumed
    ∧ ∀ simulate2 : List Instruction → Except String (Option Nat),
        simulate2 (instructions ++
            [ComputeBudgetInstruction.set_compute_unit_limit MAX_COMPUTE_UNIT_LIMIT])
          = Except.ok none →
        add_compute_unit_limit_from_simulation instructions simulate2
          = Except.error "No units consumed on simulation" := by
  refine ⟨?_, by simp, ?_, ?_⟩
  · show (match simulate (instructions ++
        [ComputeBudgetInstruction.set_compute_unit_limit MAX_COMPUTE_UNIT_LIMIT]) with
      | Except.error e => Except.error e
      | Except.ok none => Except.error "No units consumed on simulation"
      | Except.ok (some units) =>
        if units < 4294967296 then
          Except.ok (set_last_data (instructions ++
              [ComputeBudgetInstruction.set_compute_unit_limit MAX_COMPUTE_UNIT_LIMIT])
            (ComputeBudgetInstruction.set_compute_unit_limit units).data)
        else Except.error "out of range integral type conversion attempted")
      = Except.ok (instructions ++
          [ComputeBudgetInstruction.set_compute_unit_limit units_consumed])
    rw [hsim]
    simp only [if_pos h32, set_last_data_append]
    rfl
  · show nat_from_le_bytes (nat_to_le_bytes units_consumed 4) = units_consumed
    rw [nat_from_to]
    have h : (256 : Nat) ^ 4 = 4294967296 := by norm_num
    rw [h]
    exact Nat.mod_eq_of_lt h32
  · intro simulate2 hs2
    show (match simulate2 (instructions ++
        [ComputeBudgetInstruction.set_compute_unit_limit MAX_COMPUTE_UNIT_LIMIT]) with
      | Except.error e => Except.error e
      | Except.ok none => Except.error "No units consumed on simulation"
      | Except.ok (some units) =>
        if units < 4294967296 then
          Except.ok (set_last_data (instructions ++
              [ComputeBudgetInstruction.set_compute_unit_limit MAX_COMPUTE_UNIT_LIMIT])
            (ComputeBudgetInstruction.set_compute_unit_limit units).data)
        else Except.error "out of range integral type conversion attempted")
      = Except.error "No units consumed on simulation"
    rw [hs2]

/-- Witness for C1 at a concrete input: an empty instruction list and a
simulation reporting 1234 consumed units. -/
theorem c1_simulated_compute_unit_limit_witness :
    (1234 < 4294967296)
    ∧ add_compute_unit_limit_from_simulation []
          (fun _ => Except.ok (some 1234))
        = Except.ok [ComputeBudgetInstruction.set_compute_unit_limit 1234]
    ∧ ([ComputeBudgetInstruction.set_compute_unit_limit 1234] : List Instruction).length
        = ([ComputeBudgetInstruction.set_compute_unit_limit MAX_COMPUTE_UNIT_LIMIT] :
            List Instruction).length
    ∧ nat_from_le_bytes
        ((ComputeBudgetInstruction.set_compute_unit_limit 1234).data.drop 1) = 1234
    ∧ add_compute_unit_limit_from_simulation [] (fun _ => Except.ok none)
        = Except.error "No units consumed on simulation" :=
  have h := c1_simulated_compute_unit_limit [] (fun _ => Except.ok (some 1234)) 1234
    (by decide) rfl
  ⟨by decide, h.1, h.2.1, h.2.2.1, h.2.2.2 (fun _ => Except.ok none) rfl⟩

/-- Claim C2: a submission-pipeline run with N ≥ 1 list-update batches sends
batches 1..N-1 as no-wait sends each followed by the fixed 30-second pacing
sleep, then sends batch N waiting for confirmation, and only after that sends
the final settlement batch waiting for confirmation: the trace equality pins
the complete order, with the final batch's send strictly after batch N's. -/
theorem c2_submission_pipeline_ordering
    (update_list_instructions final_instructions : List Instruction)
    (h : 0 < update_list_instructions.length) :
    command_update_send_trace update_list_instructions final_instructions
      = some (((update_list_instructions.take
              (update_list_instructions.length - 1)).flatMap
            fun instruction => [SendEvent.noWait [instruction], SendEvent.pacingSleep 30])
          ++ [SendEvent.waitConfirm
                (update_list_instructions.drop (update_list_instructions.length - 1)),
              SendEvent.waitConfirm final_instructions]) := by
  simp [command_update_send_trace, split_off, h, Nat.sub_le]

/-- Witness for C2 at a concrete two-batch plan. -/
theorem c2_submission_pipeline_ordering_witness :
    0 < ([example_instruction_1, example_instruction_2] : List Instruction).length
    ∧ command_update_send_trace [example_instruction_1, example_instruction_2]
        [example_instruction_3]
      = some [SendEvent.noWait [example_instruction_1], SendEvent.pacingSleep 30,
              SendEvent.waitConfirm [example_instruction_2],
              SendEvent.waitConfirm [example_instruction_3]] :=
  ⟨by decide,
    c2_submission_pipeline_ordering [example_instruction_1, example_instruction_2]
      [example_instruction_3] (by decide)⟩

/-- Claim C9: with zero list-update instructions the pipeline completes
without panicking (the guarded `split_off` is never reached) and issues
exactly one send: the final settlement transaction, waiting for confirmation,
with no no-wait sends and no pacing sleeps. -/
theorem c9_empty_update_list (final_instructions : List Instruction) :
    command_update_send_trace [] final_instructions
        = some [SendEvent.waitConfirm final_instructions]
    ∧ (∀ ixs, SendEvent.noWait ixs ∉ [SendEvent.waitConfirm final_instructions])
    ∧ (∀ s, SendEvent.pacingSleep s ∉ [SendEvent.waitConfirm final_instructions]) := by
  refine ⟨rfl, ?_, ?_⟩
  · intro ixs
    simp
  · intro s
    simp

/-- Claim C3: in every transaction build, the fee-payer balance check is
performed before the transaction is signed (whenever the sign step occurs,
the trace is exactly blockhash fetch, fee fetch, balance check, sign, send,
so the check precedes signing); and whenever the balance is below the
estimated fee plus the additional reserve (and the build reaches the fee
check, i.e. the compute-limit resolution succeeded), the build fails with
the error naming the required and the available amounts and the transaction
is neither signed nor handed to the transport's send path. -/
theorem c3_balance_check_before_sign (config : Config) (env : BuildEnv)
    (instructions : List Instruction) (additional_fee : Nat) :
    (BuildStep.sign ∈ (build_and_send config env instructions additional_fee).1 →
      (build_and_send config env instructions additional_fee).1
        = [BuildStep.fetchBlockhash, BuildStep.fetchFee, BuildStep.checkBalance,
           BuildStep.sign, BuildStep.send])
    ∧ (env.fee_payer_balance < additional_fee + env.required_fee →
       (∃ l, resolve_compute_unit_limit config env.simulate_units
            (with_compute_unit_price config instructions) = Except.ok l) →
        (build_and_send config env instructions additional_fee).2
            = Except.error (insufficient_balance_message config.fee_payer
                (additional_fee + env.required_fee) env.fee_payer_balance)
          ∧ BuildStep.send ∉ (build_and_send config env instructions additional_fee).1
          ∧ BuildStep.sign ∉ (build_and_send config env instructions additional_fee).1) := by
  cases hr : resolve_compute_unit_limit config env.simulate_units
      (with_compute_unit_price config instructions) with
  | error e =>
    have hbs : build_and_send config env instructions additional_fee
        = ([BuildStep.fetchBlockhash], Except.error e) := by
      simp [build_and_send, checked_transaction_with_signers_and_additional_fee, hr]
    rw [hbs]
    constructor
    · intro hmem
      simp at hmem
    · intro _ hex
      rcases hex with ⟨l, hl⟩
      exact Except.noConfusion hl
  | ok limited =>
    by_cases hb : env.fee_payer_balance < additional_fee + env.required_fee
    · have hbs : build_and_send config env instructions additional_fee
          = ([BuildStep.fetchBlockhash, BuildStep.fetchFee, BuildStep.checkBalance],
              Except.error (insufficient_balance_message config.fee_payer
                (additional_fee + env.required_fee) env.fee_payer_balance)) := by
        simp [build_and_send, checked_transaction_with_signers_and_additional_fee, hr,
          check_fee_payer_balance, hb]
      rw [hbs]
      constructor
      · intro hmem
        simp at hmem
      · intro _ _
        refine ⟨rfl, ?_, ?_⟩ <;> simp
    · have hbs : (build_and_send config env instructions additional_fee).1
          = [BuildStep.fetchBlockhash, BuildStep.fetchFee, BuildStep.checkBalance,
             BuildStep.sign, BuildStep.send] := by
        simp [build_and_send, checked_transaction_with_signers_and_additional_fee, hr,
          check_fee_payer_balance, hb]
      constructor
      · intro _
        exact hbs
      · intro hb2 _
        exact absurd hb2 hb

/-- Witness for C3 at Scenario D of the specification: the fee payer holds
100 lamports while 150 are required, under the worker configuration. -/
theorem c3_balance_check_before_sign_witness :
    example_build_env_low_balance.fee_payer_balance
        < 0 + example_build_env_low_balance.required_fee
    ∧ (build_and_send example_worker_config example_build_env_low_balance [] 0).2
        = Except.error (insufficient_balance_message example_worker_config.fee_payer
            (0 + example_build_env_low_balance.required_fee)
            example_build_env_low_balance.fee_payer_balance)
    ∧ BuildStep.send ∉ (build_and_send example_worker_config
        example_build_env_low_balance [] 0).1
    ∧ BuildStep.sign ∉ (build_and_send example_worker_config
        example_build_env_low_balance [] 0).1 :=
  have h := (c3_balance_check_before_sign example_worker_config
      example_build_env_low_balance [] 0).2 (by decide) ⟨_, rfl⟩
  ⟨by decide, h.1, h.2.1, h.2.2⟩

/-- Claim C4 counterexample: with two configured addresses where the first
address's epoch-info fetch fails (and the failure notification succeeds), the
cycle ends immediately after the notification with `Ok(())`: the second
configured address is never visited — no fetch for it appears in the trace —
refuting the claim that the orchestrator proceeds to the next configured
address. -/
theorem c4_counterexample :
    process_addresses cycle_env_c4 ["pool1", "pool2"]
      = ([CycleEvent.fetchPool "pool1", CycleEvent.fetchEpoch "pool1",
          CycleEvent.notify rpc_fail_message], Except.ok ())
    ∧ CycleEvent.fetchPool "pool2" ∉ (process_addresses cycle_env_c4 ["pool1", "pool2"]).1
    ∧ CycleEvent.fetchEpoch "pool2" ∉
        (process_addresses cycle_env_c4 ["pool1", "pool2"]).1 := by
  refine ⟨rfl, ?_, ?_⟩ <;> decide

/-- Claim C4 as amended: the epoch-info fetch is attempted once (there is no
retry policy); on failure the orchestrator sends exactly one failure
notification and returns success to its caller without raising, but it ends
the cycle there — the remaining configured addresses are not processed until
the next tick. (If the notification itself fails, that error is raised.) -/
theorem c4_amended_epoch_fetch_failure (env : String → AddrEnv) (address : String)
    (rest : List String) (stake_pool : StakePool) (err : String)
    (hparse : (env address).parse_ok = true)
    (hpool : (env address).pool = Except.ok stake_pool)
    (hepoch : (env address).epoch_info = Except.error err)
    (hslack : (env address).slack_ok = true) :
    process_addresses env (address :: rest)
      = ([CycleEvent.fetchPool address, CycleEvent.fetchEpoch address,
          CycleEvent.notify rpc_fail_message], Except.ok ())
    ∧ (process_addresses env (address :: rest)).1.countP
        (fun ev => match ev with | CycleEvent.notify _ => true | _ => false) = 1 := by
  have h : process_addresses env (address :: rest)
      = ([CycleEvent.fetchPool address, CycleEvent.fetchEpoch address,
          CycleEvent.notify rpc_fail_message], Except.ok ()) := by
    simp [process_addresses, hparse, hpool, hepoch, hslack]
  refine ⟨h, ?_⟩
  rw [h]
  rfl

/-- Witness for the amended C4 at a concrete environment. -/
theorem c4_amended_epoch_fetch_failure_witness :
    process_addresses cycle_env_c4 ["pool1"]
      = ([CycleEvent.fetchPool "pool1", CycleEvent.fetchEpoch "pool1",
          CycleEvent.notify rpc_fail_message], Except.ok ())
    ∧ (process_addresses cycle_env_c4 ["pool1"]).1.countP
        (fun ev => match ev with | CycleEvent.notify _ => true | _ => false) = 1 :=
  c4_amended_epoch_fetch_failure cycle_env_c4 "pool1" []
    { last_update_epoch := 500, validator_list := "VList1" } "rpc down"
    rfl rfl rfl rfl

/-- Claim C5: when a pool's snapshot `last_update_epoch` equals the current
network epoch (and there is no force flag at the watcher level — the watcher
has none), the cycle skips the pool: its trace segment is exactly the two
fetches and the skip, containing no notification and no update run, and the
cycle continues with the remaining addresses. -/
theorem c5_epoch_unchanged_skip (env : String → AddrEnv) (address : String)
    (rest : List String) (stake_pool : StakePool) (epoch : Nat)
    (hparse : (env address).parse_ok = true)
    (hpool : (env address).pool = Except.ok stake_pool)
    (hepoch : (env address).epoch_info = Except.ok epoch)
    (heq : stake_pool.last_update_epoch = epoch) :
    process_addresses env (address :: rest)
      = (CycleEvent.fetchPool address :: CycleEvent.fetchEpoch address ::
          CycleEvent.skipPool address :: (process_addresses env rest).1,
        (process_addresses env rest).2)
    ∧ (∀ s, CycleEvent.notify s ∉
        [CycleEvent.fetchPool address, CycleEvent.fetchEpoch address,
         CycleEvent.skipPool address])
    ∧ (∀ a, CycleEvent.runUpdate a ∉
        [CycleEvent.fetchPool address, CycleEvent.fetchEpoch address,
         CycleEvent.skipPool address]) := by
  refine ⟨?_, ?_, ?_⟩
  · simp [process_addresses, hparse, hpool, hepoch, heq]
  · intro s
    simp
  · intro a
    simp

/-- Witness for C5 at Scenario A of the specification: pool epoch 500,
network epoch 500. -/
theorem c5_epoch_unchanged_skip_witness :
    process_addresses cycle_env_c5 ["poolA"]
      = ([CycleEvent.fetchPool "poolA", CycleEvent.fetchEpoch "poolA",
          CycleEvent.skipPool "poolA"], Except.ok ())
    ∧ CycleEvent.notify "anything" ∉
        [CycleEvent.fetchPool "poolA", CycleEvent.fetchEpoch "poolA",
         CycleEvent.skipPool "poolA"]
    ∧ CycleEvent.runUpdate "poolA" ∉
        [CycleEvent.fetchPool "poolA", CycleEvent.fetchEpoch "poolA",
         CycleEvent.skipPool "poolA"] :=
  have h := c5_epoch_unchanged_skip cycle_env_c5 "poolA" []
    { last_update_epoch := 500, validator_list := "VList1" } 500
    rfl rfl rfl rfl
  ⟨h.1, h.2.1 "anything", h.2.2 "poolA"⟩

/-- Claim C7 counterexample: a configured address rejected by
`Pubkey::from_str` yields a 500 response whose body is the text
"Invalid stake pool address" — a fifth message outside the set the claim
says the 500 bodies are drawn from exactly. -/
theorem c7_counterexample :
    get_validators ["BadAddress"] http_env_bad_parse
      = { status := 500, body := ResponseBody.text "Invalid stake pool address" }
    ∧ "Invalid stake pool address" ∉
        ["Failed to fetch stake pool", "Failed to fetch validator list",
         "No stake pool addresses configured", "Internal panic occurred"] := by
  refine ⟨rfl, ?_⟩
  decide

/-- Claim C7 as amended: every `GET /validators` response is either a 200
with the JSON-rendered transformed validator list, or a 500 whose short text
body is one of the five messages "Failed to fetch stake pool",
"Failed to fetch validator list", "No stake pool addresses configured",
"Internal panic occurred" or "Invalid stake pool address"; a panic of the
spawned task is caught at the request boundary and always answered with the
500 panic response. -/
theorem c7_amended_response_classification (stake_pool_address : List String)
    (env : HttpEnv) :
    (env.panicked = true →
      get_validators stake_pool_address env
        = { status := 500, body := ResponseBody.text "Internal panic occurred" })
    ∧ ((∃ v, get_validators stake_pool_address env
          = { status := 200, body := ResponseBody.jsonList v })
      ∨ (∃ m, get_validators stake_pool_address env
            = { status := 500, body := ResponseBody.text m }
          ∧ m ∈ ["Failed to fetch stake pool", "Failed to fetch validator list",
                 "No stake pool addresses configured", "Internal panic occurred",
                 "Invalid stake pool address"])) := by
  constructor
  · intro hp
    simp [get_validators, hp]
  · by_cases hp : env.panicked
    · right
      exact ⟨"Internal panic occurred", by simp [get_validators, hp], by simp⟩
    · by_cases he : stake_pool_address.isEmpty
      · right
        refine ⟨"No stake pool addresses configured", ?_, by simp⟩
        simp [get_validators, get_validators_inner, hp, he]
      · by_cases hpk : env.parse_ok
        · cases hpf : env.pool_fetch with
          | none =>
            right
            refine ⟨"Failed to fetch stake pool", ?_, by simp⟩
            simp [get_validators, get_validators_inner, hp, he, hpk, hpf]
          | some pool =>
            cases hlf : env.list_fetch with
            | none =>
              right
              refine ⟨"Failed to fetch validator list", ?_, by simp⟩
              simp [get_validators, get_validators_inner, hp, he, hpk, hpf, hlf]
            | some validator_list =>
              left
              refine ⟨serialize_validator_list validator_list, ?_⟩
              simp [get_validators, get_validators_inner, hp, he, hpk, hpf, hlf]
        · right
          refine ⟨"Invalid stake pool address", ?_, by simp⟩
          simp [get_validators, get_validators_inner, hp, he, hpk]

/-- Witness for the amended C7: a panicking task is answered with the 500
panic response. -/
theorem c7_amended_response_classification_witness :
    get_validators [] http_env_panicked
      = { status := 500, body := ResponseBody.text "Internal panic occurred" } :=
  (c7_amended_response_classification [] http_env_panicked).1 rfl

/-- Claim C8 (evaluating the code at the failing input): with every required
environment variable missing, `StakePoolConfig::get_config` does not fail —
it succeeds and substitutes the displayed `ConfigError` messages as the
configuration values, so startup is not aborted, contradicting the claim
(and the caller in src/main.rs, which expects a fallible constructor). -/
theorem c8_missing_env_vars_not_fatal :
    get_config (fun _ => none)
      = { rpc_url := "Error: Invalid RPC Url"
          fee_payer_private_key := "Error: Invalid Fee Payer"
          stake_pool_address := "Error: Invalid Stake Pool Address"
          slack_token := "Error: Invalid Slack Token"
          slack_channel_id := "Error: Invalid Slack Channel ID" } := rfl

/-- Claim C10: the Read API transform preserves every numeric field
byte-for-byte — for well-formed pod byte arrays, decoding each little-endian
field and re-encoding it is the identity — and copies the vote-account
address unchanged. -/
theorem c10_transform_preserves_bytes (x : SplValidatorStakeInfo)
    (h1 : bytes_wf x.active_stake_lamports.bytes 8)
    (h2 : bytes_wf x.transient_stake_lamports.bytes 8)
    (h3 : bytes_wf x.last_update_epoch.bytes 8)
    (h4 : bytes_wf x.transient_seed_suffix.bytes 8)
    (h5 : bytes_wf x.unused.bytes 4)
    (h6 : bytes_wf x.validator_seed_suffix.bytes 4) :
    (serialize_stake_info x).active_stake_lamports = x.active_stake_lamports
    ∧ (serialize_stake_info x).transient_stake_lamports = x.transient_stake_lamports
    ∧ (serialize_stake_info x).last_update_epoch = x.last_update_epoch
    ∧ (serialize_stake_info x).transient_seed_suffix = x.transient_seed_suffix
    ∧ (serialize_stake_info x).unused = x.unused
    ∧ (serialize_stake_info x).validator_seed_suffix = x.validator_seed_suffix
    ∧ (serialize_stake_info x).vote_account_address = x.vote_account_address := by
  refine ⟨?_, ?_, ?_, ?_, ?_, ?_, rfl⟩
  · show PodU64.mk (nat_to_le_bytes (nat_from_le_bytes x.active_stake_lamports.bytes) 8)
      = x.active_stake_lamports
    rw [bytes_roundtrip _ _ h1]
  · show PodU64.mk (nat_to_le_bytes (nat_from_le_bytes x.transient_stake_lamports.bytes) 8)
      = x.transient_stake_lamports
    rw [bytes_roundtrip _ _ h2]
  · show PodU64.mk (nat_to_le_bytes (nat_from_le_bytes x.last_update_epoch.bytes) 8)
      = x.last_update_epoch
    rw [bytes_roundtrip _ _ h3]
  · show PodU64.mk (nat_to_le_bytes (nat_from_le_bytes x.transient_seed_suffix.bytes) 8)
      = x.transient_seed_suffix
    rw [bytes_roundtrip _ _ h4]
  · show PodU32.mk (nat_to_le_bytes (nat_from_le_bytes x.unused.bytes) 4)
      = x.unused
    rw [bytes_roundtrip _ _ h5]
  · show PodU32.mk (nat_to_le_bytes (nat_from_le_bytes x.validator_seed_suffix.bytes) 4)
      = x.validator_seed_suffix
    rw [bytes_roundtrip _ _ h6]

/-- Witness for C10 at a concrete decoded validator entry. -/
theorem c10_transform_preserves_bytes_witness :
    bytes_wf sample_stake_info.active_stake_lamports.bytes 8
    ∧ ((serialize_stake_info sample_stake_info).active_stake_lamports
          = sample_stake_info.active_stake_lamports
      ∧ (serialize_stake_info sample_stake_info).transient_stake_lamports
          = sample_stake_info.transient_stake_lamports
      ∧ (serialize_stake_info sample_stake_info).last_update_epoch
          = sample_stake_info.last_update_epoch
      ∧ (serialize_stake_info sample_stake_info).transient_seed_suffix
          = sample_stake_info.transient_seed_suffix
      ∧ (serialize_stake_info sample_stake_info).unused = sample_stake_info.unused
      ∧ (serialize_stake_info sample_stake_info).validator_seed_suffix
          = sample_stake_info.validator_seed_suffix
      ∧ (serialize_stake_info sample_stake_info).vote_account_address
          = sample_stake_info.vote_account_address) :=
  ⟨by decide,
    c10_transform_preserves_bytes sample_stake_info (by decide) (by decide)
      (by decide) (by decide) (by decide) (by decide)⟩

end StakePoolCranker
